import Mathlib

set_option maxRecDepth 100000

/-!
Verification of the spec of a repository holding two Jupyter tutorial
notebooks (`distributing_data.ipynb`, `ingesting_data.ipynb`) for the
Intake data-cataloging library.  The repository authors no library code:
its code cells call `intake.open_csv`, `DataSource.yaml`,
`intake.open_catalog`, `.read()` and pandas.  Accordingly this file has
two layers:

1. a faithful structural embedding of the notebooks themselves (cell
   types, the statements of every code cell, line counts), transcribed
   from the `.ipynb` JSON under `src/`; and
2. a model of the Intake / pandas operations the notebooks invoke,
   built from the spec's words since the Intake library's source is an
   external dependency that is not part of the repository.

Dates are modelled abstractly: a field of a column listed in
`parse_dates` becomes a `Value.date` tagging the raw field text, since
no claim depends on calendar arithmetic, only on equality of results.
Text processing inside the model works on `List Char` (via
`String.data`) with structural recursion, so that every definition
evaluates by kernel reduction on concrete inputs.
-/

/-! ## Character-list utilities -/

/-- Split a character list on a separator; the separator is consumed.
Always returns at least one (possibly empty) group. -/
def splitOnChar (sep : Char) : List Char → List (List Char)
  | [] => [[]]
  | c :: cs =>
    match splitOnChar sep cs with
    | [] => [[]]
    | g :: gs => if c = sep then [] :: g :: gs else (c :: g) :: gs

/-- The numeric value of a decimal digit character. -/
def digitVal (c : Char) : Option Nat :=
  if '0' ≤ c ∧ c ≤ '9' then some (c.toNat - '0'.toNat) else none

/-- Read a character list as a decimal numeral. -/
def charsToNat (l : List Char) : Option Nat :=
  if l = [] then none
  else l.foldl (fun acc c => acc.bind (fun n => (digitVal c).map (fun d => 10 * n + d)))
    (some 0)

/-! ## Model of the Intake / pandas operations (modelled from the spec) -/

/-- A cell value of a dataframe: a raw text field, or a field of a
column that `parse_dates` asked to convert, tagged as a date. -/
inductive Value where
  | str (raw : String)
  | date (raw : String)
deriving DecidableEq, Repr

/-- Modelled from the spec: a pandas `DataFrame`, the "tabular
structure" of the glossary — named columns and rows of values. -/
structure DataFrame where
  names : List String
  rows : List (List Value)
deriving DecidableEq, Repr

/-- The `csv_kwargs` the notebooks pass: `skiprows`, `names`,
`parse_dates` (`distributing_data.ipynb`, cells reading the CSV). -/
structure CsvKwargs where
  skiprows : Nat
  names : List String
  parse_dates : List String
deriving DecidableEq, Repr

/-- A file system: path to file contents, `none` when the file is
missing. -/
def FileSystem : Type := String → Option String

/-- One field of a CSV row: columns listed in `parse_dates` are tagged
as dates, the rest stay raw text. -/
def parseField (pd : List String) (colName raw : String) : Value :=
  if pd.contains colName then Value.date raw else Value.str raw

/-- One data row: split on commas; the row parses only when it has
exactly one field per column name. -/
def parseRow (names pd : List String) (line : List Char) : Option (List Value) :=
  let fields := (splitOnChar ',' line).map String.mk
  if fields.length = names.length then
    some ((names.zip fields).map (fun p => parseField pd p.1 p.2))
  else none

/-- Modelled from the spec: `pandas.read_csv` restricted to the keyword
arguments the notebooks use — drop the first `skiprows` lines, name the
columns `names`, convert the `parse_dates` columns.  Empty lines are
ignored; a malformed row makes the whole read fail. -/
def readCsv (kw : CsvKwargs) (content : String) : Option DataFrame :=
  let ls := ((splitOnChar '\n' content.data).drop kw.skiprows).filter (fun l => l ≠ [])
  (ls.mapM (parseRow kw.names kw.parse_dates)).map (fun rows => DataFrame.mk kw.names rows)

/-- Modelled from the spec: the whole `pd.read_csv(path, **kwargs)`
call of `distributing_data.ipynb`: fetch the file, parse it. -/
def pd_read_csv (path : String) (kw : CsvKwargs) (fs : FileSystem) : Option DataFrame :=
  (fs path).bind (readCsv kw)

/-- Modelled from the spec's glossary: a data source is "a description
(driver name + arguments)".  The notebooks only ever build csv-driver
sources, whose arguments are a `urlpath` and `csv_kwargs`. -/
structure DataSource where
  driver : String
  urlpath : String
  csv_kwargs : CsvKwargs
deriving DecidableEq, Repr

/-- Modelled from the spec: `intake.open_csv(urlpath, csv_kwargs=...)`
wraps the pandas recipe into a csv-driver data source description. -/
def open_csv (urlpath : String) (kw : CsvKwargs) : DataSource :=
  DataSource.mk "csv" urlpath kw

/-- Modelled from the spec: `DataSource.read()` resolves the driver —
the csv driver delegates to the pandas reader on the source's
arguments; an unknown driver fails. -/
def DataSource.read (ds : DataSource) (fs : FileSystem) : Option DataFrame :=
  if ds.driver = "csv" then (fs ds.urlpath).bind (readCsv ds.csv_kwargs) else none

/-- The data source the distributing notebook builds (cell 8). -/
def theDataSource : DataSource :=
  open_csv "datasets/SRLCC_b1_Precip_PCM-NCAR.csv"
    (CsvKwargs.mk 3 ["time", "precip"] ["time"])

/-! ### Catalog files

Modelled from the spec's glossary: a catalog is "a file (YAML)
describing named data sources and how to load them".  `DataSource.yaml`
renders the description to catalog-file text; `open_catalog` parses
such text back into named entries.  The field layout follows the shape
Intake prints (a `sources:` root, one indented block per entry, an
`args:` block and a `driver:` line), with scalar `names` /
`parse_dates` lists. -/

/-- Comma-join a scalar list for the catalog text. -/
def joinComma (xs : List String) : String := String.intercalate "," xs

/-- Modelled from the spec: `DataSource.yaml()` — serialize the
description under the default entry name `csv` (the driver name). -/
def DataSource.yaml (ds : DataSource) : String :=
  "sources:\n  csv:\n    args:\n      urlpath: " ++ ds.urlpath ++
  "\n      skiprows: " ++ toString ds.csv_kwargs.skiprows ++
  "\n      names: " ++ joinComma ds.csv_kwargs.names ++
  "\n      parse_dates: " ++ joinComma ds.csv_kwargs.parse_dates ++
  "\n    driver: " ++ ds.driver ++ "\n"

/-- Leading-space count of a catalog line. -/
def indentOf (l : List Char) : Nat :=
  l.length - (l.dropWhile (fun c => c = ' ')).length

/-- Split an indented line at the first `": "` into key and value. -/
def splitKV : List Char → Option (List Char × List Char)
  | [] => none
  | ':' :: ' ' :: rest => some ([], rest)
  | c :: rest => (splitKV rest).map (fun p => (c :: p.1, p.2))

/-- Key and value of a catalog line; a line ending in a bare colon gets
an empty value. -/
def parseKV (l : List Char) : Option (List Char × List Char) :=
  let t := l.dropWhile (fun c => c = ' ')
  match splitKV t with
  | some p => some p
  | none => if t.getLast? = some ':' then some (t.dropLast, []) else none

/-- State of the line scanner grouping catalog lines into entries. -/
structure ScanState where
  entries : List (List Char × List (List Char))
  cur : Option (List Char × List (List Char))
deriving Repr

/-- Close the entry being collected, if any. -/
def flushCur (st : ScanState) : List (List Char × List (List Char)) :=
  st.entries ++ (match st.cur with | some e => [e] | none => [])

/-- One scanner step: a two-space indented `name:` line opens an entry,
deeper lines belong to the open entry, anything else closes it. -/
def stepLine (st : ScanState) (l : List Char) : ScanState :=
  if indentOf l = 2 ∧ l.getLast? = some ':' then
    ScanState.mk (flushCur st) (some ((l.dropWhile (fun c => c = ' ')).dropLast, []))
  else if 4 ≤ indentOf l then
    match st.cur with
    | some e => ScanState.mk st.entries (some (e.1, e.2 ++ [l]))
    | none => st
  else
    ScanState.mk (flushCur st) none

/-- Group the non-blank lines of a catalog file into named entries. -/
def scanEntries (ls : List (List Char)) : List (List Char × List (List Char)) :=
  flushCur (ls.foldl stepLine (ScanState.mk [] none))

/-- Rebuild one data source from its entry lines: the entry must name
the csv driver and carry the csv arguments. -/
def entrySource (body : List (List Char)) : Option DataSource :=
  let kvs := body.filterMap parseKV
  match kvs.lookup "driver".data, kvs.lookup "urlpath".data, kvs.lookup "skiprows".data,
      kvs.lookup "names".data, kvs.lookup "parse_dates".data with
  | some d, some u, some sk, some ns, some pd =>
    if d = "csv".data then
      (charsToNat sk).map (fun n =>
        DataSource.mk "csv" (String.mk u)
          (CsvKwargs.mk n ((splitOnChar ',' ns).map String.mk)
            ((splitOnChar ',' pd).map String.mk)))
    else none
  | _, _, _, _, _ => none

/-- Modelled from the spec: `intake.open_catalog` on the contents of a
catalog file — the named data-source entries the file describes
(entries that do not describe a loadable source are dropped). -/
def open_catalog (content : String) : List (String × DataSource) :=
  (scanEntries ((splitOnChar '\n' content.data).filter (fun l => l ≠ []))).filterMap
    (fun e => (entrySource e.2).map (fun ds => (String.mk e.1, ds)))

/-- Modelled from the spec: `list(cat)` — the names of the catalog's
entries. -/
def catList (cat : List (String × DataSource)) : List String :=
  cat.map Prod.fst

/-! ## Structural embedding of the two notebooks

Transcribed from the `.ipynb` JSON under `src/`.  Cells are listed in
notebook order; every top-level statement of every code cell is listed
with its kind, the index of its cell, and its text (a multi-line
statement is joined onto one line; quote and brace characters of the
Python text appear as character escapes). -/

/-- The type of a Jupyter notebook cell (the nbformat cell types). -/
inductive CellType where
  | markdown
  | code
  | raw
deriving DecidableEq, Repr

/-- The kind of a top-level statement of a code cell. -/
inductive StmtKind where
  | importStmt
  | assign
  | exprCall
  | bareExpr
  | withBlock
  | shellCmd
  | funcDef
  | classDef
  | loop
  | conditional
  | tryExcept
deriving DecidableEq, Repr

/-- One top-level statement of a code cell: kind, cell index, text. -/
structure Stmt where
  kind : StmtKind
  cell : Nat
  text : String
deriving DecidableEq, Repr

/-- Cell types of `distributing_data.ipynb`, in order (27 cells; code
cells at indices 1, 3, 6, 8, 10, 13, 15, 18, 20, 23, 25). -/
def distributingCellTypes : List CellType :=
  [.markdown, .code, .markdown, .code, .markdown, .markdown, .code, .markdown, .code,
   .markdown, .code, .markdown, .markdown, .code, .markdown, .code, .markdown, .markdown,
   .code, .markdown, .code, .markdown, .markdown, .code, .markdown, .code, .markdown]

/-- Cell types of `ingesting_data.ipynb`, in order (28 cells; code
cells at indices 1, 3, 5, 8, 10, 13, 15, 17, 18, 21, 22, 24, 26). -/
def ingestingCellTypes : List CellType :=
  [.markdown, .code, .markdown, .code, .markdown, .code, .markdown, .markdown, .code,
   .markdown, .code, .markdown, .markdown, .code, .markdown, .code, .markdown, .code,
   .code, .markdown, .markdown, .code, .code, .markdown, .code, .markdown, .code,
   .markdown]

/-- The statements of the code cells of `distributing_data.ipynb`. -/
def distributingStmts : List Stmt :=
  [⟨.importStmt, 1, "import intake"⟩,
   ⟨.importStmt, 3, "import os"⟩,
   ⟨.exprCall, 3, "os.listdir(\x27data\x27)"⟩,
   ⟨.importStmt, 6, "import pandas as pd"⟩,
   ⟨.assign, 6, "df = pd.read_csv(\x27datasets/SRLCC_b1_Precip_PCM-NCAR.csv\x27, skiprows=3, names=[\x27time\x27, \x27precip\x27], parse_dates=[\x27time\x27])"⟩,
   ⟨.exprCall, 6, "df.head()"⟩,
   ⟨.assign, 8, "data_source = intake.open_csv(\x27datasets/SRLCC_b1_Precip_PCM-NCAR.csv\x27, csv_kwargs=dict(skiprows=3, names=[\x27time\x27, \x27precip\x27], parse_dates=[\x27time\x27]))"⟩,
   ⟨.bareExpr, 8, "data_source"⟩,
   ⟨.assign, 10, "df = data_source.read()"⟩,
   ⟨.exprCall, 10, "df.head()"⟩,
   ⟨.withBlock, 13, "with open(\x27my_catalog.yml\x27, \x27w\x27) as f: f.write(data_source.yaml())"⟩,
   ⟨.withBlock, 15, "with open(\x27my_catalog.yml\x27, \x27r\x27) as f: print(f.read())"⟩,
   ⟨.assign, 18, "cat = intake.open_catalog(\x27my_catalog.yml\x27)"⟩,
   ⟨.exprCall, 18, "list(cat)"⟩,
   ⟨.assign, 20, "df = cat.csv.read()"⟩,
   ⟨.exprCall, 20, "df.head()"⟩,
   ⟨.shellCmd, 23, "!conda install conda-build --yes --quiet"⟩,
   ⟨.shellCmd, 25, "!conda build conda.recipe --output-folder built --quiet"⟩]

/-- The statements of the code cells of `ingesting_data.ipynb`. -/
def ingestingStmts : List Stmt :=
  [⟨.importStmt, 1, "import intake"⟩,
   ⟨.exprCall, 1, "intake.output_notebook()"⟩,
   ⟨.assign, 3, "local_cat = intake.open_catalog(\x27catalog.yml\x27)"⟩,
   ⟨.exprCall, 3, "list(local_cat)"⟩,
   ⟨.assign, 5, "url = \x27https://raw.githubusercontent.com/ContinuumIO/anaconda-package-data/master/catalog/anaconda_package_data.yaml\x27"⟩,
   ⟨.assign, 5, "remote_cat = intake.open_catalog(url)"⟩,
   ⟨.exprCall, 5, "list(remote_cat)"⟩,
   ⟨.assign, 8, "MY_SERVER_URL = \x27intake://server.aip.anaconda.com\x27"⟩,
   ⟨.assign, 8, "server_cat = intake.open_catalog(MY_SERVER_URL, http_args=\x7b\x27ssl\x27: True\x7d)"⟩,
   ⟨.exprCall, 8, "list(server_cat)"⟩,
   ⟨.exprCall, 10, "list(intake.cat)"⟩,
   ⟨.assign, 13, "source = local_cat.southern_rockies"⟩,
   ⟨.exprCall, 13, "print(source.description)"⟩,
   ⟨.assign, 15, "df = source.read()"⟩,
   ⟨.exprCall, 15, "df.head()"⟩,
   ⟨.assign, 17, "mean_df = df.groupby([\x27emissions\x27, \x27model\x27])[\x27precip\x27].mean()"⟩,
   ⟨.bareExpr, 17, "mean_df"⟩,
   ⟨.importStmt, 18, "import hvplot.pandas"⟩,
   ⟨.exprCall, 18, "mean_df.hvplot.barh()"⟩,
   ⟨.bareExpr, 21, "source.plots"⟩,
   ⟨.exprCall, 22, "source.hvplot.violin_example()"⟩,
   ⟨.exprCall, 24, "source.hvplot.line(x=\x27time\x27, y=\x27precip\x27, groupby=[\x27emissions\x27, \x27model\x27])"⟩,
   ⟨.bareExpr, 26, "local_cat.gui"⟩]

/-- All statements of both notebooks. -/
def allStmts : List Stmt := distributingStmts ++ ingestingStmts

/-- Line count of `distributing_data.ipynb`. -/
def distributing_lines : Nat := 298

/-- Line count of `ingesting_data.ipynb`. -/
def ingesting_lines : Nat := 275

/-- Statement kinds that define control or failure-handling structure:
function, class, loop, conditional, exception handler. -/
def controlKinds : List StmtKind :=
  [.funcDef, .classDef, .loop, .conditional, .tryExcept]

/-! ## Further model definitions used by individual claims -/

/-- Modelled from the spec (ingesting notebook, note before
`list(intake.cat)`): `intake.cat` is the builtin catalog collecting the
entries of the Intake data packages installed in the environment. -/
def intake_cat (installedPkgs : List (List (String × DataSource))) :
    List (String × DataSource) :=
  installedPkgs.foldr (fun p acc => p ++ acc) []

/-- Modelled from the spec: the runtime state of a data source obtained
from a catalog entry — its description string, its source description,
and the loaded-data state (`cache`, empty until a read happens). -/
structure SourceState where
  ds : DataSource
  description : String
  cache : Option DataFrame

/-- Modelled from the spec: accessing `source.description`.  The result
triple records the returned metadata, the state afterwards, and the
list of data files fetched by the access. -/
def getDescription (st : SourceState) : String × SourceState × List String :=
  (st.description, st, [])

/-- Modelled from the spec: `source.read()` — fetch and parse the
source's file, cache the loaded dataframe; the third component lists
the data files fetched. -/
def readSource (st : SourceState) (fs : FileSystem) :
    Option DataFrame × SourceState × List String :=
  let r := st.ds.read fs
  (r, SourceState.mk st.ds st.description r, [st.ds.urlpath])

/-- One full run of the ingesting work-flow on one entry: open the
catalog file, look the entry up, read its data. -/
def runRead (cat : String) (fs : FileSystem) (entry : String) : Option DataFrame :=
  ((open_catalog cat).lookup entry).bind (fun src => src.read fs)

/-- Sample contents for the precipitation CSV: three header lines (the
`skiprows=3` of the notebooks) and two data rows. -/
def sampleCsv : String :=
  "Southern Rockies LCC\nb1 scenario\nPCM-NCAR model\n2000-01-01,1.5\n2000-02-01,2.25"

/-- A file system holding only the sample CSV. -/
def sampleFs : FileSystem :=
  fun p => if p = "datasets/SRLCC_b1_Precip_PCM-NCAR.csv" then some sampleCsv else none

/-- The dataframe the sample CSV parses to under the notebooks'
`csv_kwargs`. -/
def sampleDf : DataFrame :=
  DataFrame.mk ["time", "precip"]
    [[Value.date "2000-01-01", Value.str "1.5"],
     [Value.date "2000-02-01", Value.str "2.25"]]

/-- Like `sampleFs` with one extra file no catalog entry references. -/
def sampleFsExtra : FileSystem :=
  fun p =>
    if p = "datasets/SRLCC_b1_Precip_PCM-NCAR.csv" then some sampleCsv
    else if p = "scratch_notes.txt" then some "unrelated contents" else none

/-! ## Helper lemmas -/

/-- A successful lookup means the pair is in the association list. -/
lemma lookup_mem {l : List (String × DataSource)} {n : String} {s : DataSource}
    (h : l.lookup n = some s) : (n, s) ∈ l := by
  rcases List.lookup_eq_some_iff.mp h with ⟨l₁, l₂, rfl, -⟩
  simp

/-- Every source `entrySource` rebuilds carries the csv driver. -/
lemma entrySource_driver {b : List (List Char)} {ds : DataSource}
    (h : entrySource b = some ds) : ds.driver = "csv" := by
  rw [entrySource] at h
  simp only [] at h
  split at h
  · split at h
    · rcases Option.map_eq_some'.mp h with ⟨n, -, rfl⟩
      rfl
    · exact absurd h (by simp)
  · exact absurd h (by simp)

/-- Every entry of an opened catalog carries the csv driver. -/
lemma open_catalog_driver {content : String} {p : String × DataSource}
    (h : p ∈ open_catalog content) : p.2.driver = "csv" := by
  unfold open_catalog at h
  rcases List.mem_filterMap.mp h with ⟨e, -, he⟩
  rcases Option.map_eq_some'.mp he with ⟨ds, hds, hp⟩
  subst hp
  exact entrySource_driver hds

/-- A read only looks at the file system at the source's `urlpath`. -/
lemma read_congr {ds : DataSource} {fs1 fs2 : FileSystem}
    (h : fs1 ds.urlpath = fs2 ds.urlpath) : ds.read fs1 = ds.read fs2 := by
  unfold DataSource.read
  rw [h]

/-! ## The claims -/

/-- C1: Round-trip through the catalog file — for the data source the
distributing notebook builds with `intake.open_csv`, writing
`data_source.yaml()` to a catalog file and opening that file with
`intake.open_catalog` yields a catalog whose entry `csv` reads to the
same dataframe as the original data source, for any fixed contents of
the referenced CSV file. -/
theorem catalog_roundtrip_read (fs : FileSystem) :
    ∃ src, (open_catalog theDataSource.yaml).lookup "csv" = some src ∧
      src.read fs = theDataSource.read fs :=
  ⟨theDataSource, rfl, rfl⟩

/-- C2: The Intake-wrapped read equals the direct pandas read — for any
fixed contents of `datasets/SRLCC_b1_Precip_PCM-NCAR.csv`, reading the
`intake.open_csv` data source built with the notebook's `csv_kwargs`
gives the same dataframe as `pd.read_csv` with those keyword
arguments. -/
theorem intake_read_eq_pandas_read (fs : FileSystem) :
    DataSource.read
      (open_csv "datasets/SRLCC_b1_Precip_PCM-NCAR.csv"
        (CsvKwargs.mk 3 ["time", "precip"] ["time"])) fs
      = pd_read_csv "datasets/SRLCC_b1_Precip_PCM-NCAR.csv"
          (CsvKwargs.mk 3 ["time", "precip"] ["time"]) fs := rfl

/-- C3: Every data source obtained from an opened catalog reads to a
dataframe (the tabular structure of the model), provided the file the
source points to exists and parses. -/
theorem catalog_source_read_is_dataframe (content name : String) (src : DataSource)
    (fs : FileSystem) (raw : String) (df : DataFrame)
    (hmem : (name, src) ∈ open_catalog content)
    (hfile : fs src.urlpath = some raw)
    (hparse : readCsv src.csv_kwargs raw = some df) :
    src.read fs = some df := by
  have hd : src.driver = "csv" := open_catalog_driver hmem
  unfold DataSource.read
  rw [hd, hfile]
  simp [hparse]

/-- Witness for C3 at the notebook's own catalog and a concrete file
system: the entry `csv` of the written catalog reads to `sampleDf`. -/
theorem catalog_source_read_is_dataframe_witness :
    theDataSource.read sampleFs = some sampleDf :=
  catalog_source_read_is_dataframe theDataSource.yaml "csv" theDataSource
    sampleFs sampleCsv sampleDf (by decide) rfl rfl

/-- C4 counterexample: the claim that every statement of the notebooks'
code cells is an import, an assignment or a direct call fails — the
statement of cell 13 of `distributing_data.ipynb` is a `with` block,
which is none of those three kinds. -/
theorem notebook_stmt_outside_import_assign_call :
    distributingStmts.get? 10 = some (Stmt.mk StmtKind.withBlock 13
      "with open(\x27my_catalog.yml\x27, \x27w\x27) as f: f.write(data_source.yaml())") ∧
    StmtKind.withBlock ∉ [StmtKind.importStmt, StmtKind.assign, StmtKind.exprCall] := by
  decide

/-- C4 as amended: no code cell of either notebook defines a function,
class, loop, conditional or exception handler, and every statement is
an import, an assignment, an expression statement (a direct library
call or a bare expression), a `with` block doing file output or input,
or an IPython shell escape. -/
theorem notebook_stmts_classification :
    allStmts.filter (fun s => controlKinds.contains s.kind) = [] ∧
    allStmts.all (fun s =>
      [StmtKind.importStmt, StmtKind.assign, StmtKind.exprCall, StmtKind.bareExpr,
       StmtKind.withBlock, StmtKind.shellCmd].contains s.kind) = true := by decide

/-- C5: `list(cat)` gives the names of the data-source entries the
catalog file describes; for the catalog written from the distributing
notebook's single `open_csv` source it is the one-element list
`["csv"]`. -/
theorem catalog_list_entry_names :
    (∀ content : String, catList (open_catalog content) =
      (scanEntries ((splitOnChar '\n' content.data).filter (fun l => l ≠ []))).filterMap
        (fun e => (entrySource e.2).map (fun _ => String.mk e.1))) ∧
    catList (open_catalog theDataSource.yaml) = ["csv"] := by
  constructor
  · intro content
    unfold open_catalog catList
    rw [List.map_filterMap]
    congr 1
    funext e
    rw [Option.map_map]
    rfl
  · rfl

/-- C6: the two notebooks total 573 lines, under 600; every cell is
markdown or code (no raw cells), and no code cell instantiates a
reusable system (no function or class definitions). -/
theorem notebooks_size_and_content :
    distributing_lines + ingesting_lines = 573 ∧
    distributing_lines + ingesting_lines < 600 ∧
    (distributingCellTypes ++ ingestingCellTypes).filter (fun c => c == CellType.raw) = [] ∧
    allStmts.filter (fun s =>
      [StmtKind.funcDef, StmtKind.classDef].contains s.kind) = [] := by decide

/-- C7: the only shell escapes in the notebooks are the two conda
packaging cells of `distributing_data.ipynb`. -/
theorem notebook_shell_commands :
    allStmts.filter (fun s => s.kind == StmtKind.shellCmd) =
      [Stmt.mk StmtKind.shellCmd 23 "!conda install conda-build --yes --quiet",
       Stmt.mk StmtKind.shellCmd 25 "!conda build conda.recipe --output-folder built --quiet"] := by
  decide

/-- C8: with no Intake data package installed, `list(intake.cat)` is
the empty list. -/
theorem builtin_cat_empty_when_no_packages : catList (intake_cat []) = [] := rfl

/-- C9: accessing a source's metadata returns the description, fetches
no data files, and leaves the loaded-data state unchanged; the data
file is fetched only by `read`. -/
theorem metadata_access_reads_no_files (st : SourceState) :
    (getDescription st).1 = st.description ∧
    (getDescription st).2.1 = st ∧
    (getDescription st).2.1.cache = st.cache ∧
    (getDescription st).2.2 = [] ∧
    ∀ fs : FileSystem, (readSource st fs).2.2 = [st.ds.urlpath] :=
  ⟨rfl, rfl, rfl, rfl, fun _ => rfl⟩

/-- C10: catalog reading is deterministic — two runs over the same
catalog-file contents and file systems that agree on every data file
the catalog references produce identical dataframes; in particular the
result does not depend on files the catalog does not reference. -/
theorem catalog_read_deterministic (cat1 cat2 : String) (fs1 fs2 : FileSystem)
    (entry : String) (hcat : cat1 = cat2)
    (hfs : ∀ p ∈ open_catalog cat1, fs1 p.2.urlpath = fs2 p.2.urlpath) :
    runRead cat1 fs1 entry = runRead cat2 fs2 entry := by
  subst hcat
  unfold runRead
  cases hl : (open_catalog cat1).lookup entry with
  | none => rfl
  | some src =>
    have hmem : (entry, src) ∈ open_catalog cat1 := lookup_mem hl
    have h := hfs _ hmem
    show src.read fs1 = src.read fs2
    exact read_congr h

/-- Witness for C10: two runs over the notebook's catalog, one on a
file system with an extra unreferenced file, give the same result. -/
theorem catalog_read_deterministic_witness :
    runRead theDataSource.yaml sampleFsExtra "csv" =
      runRead theDataSource.yaml sampleFs "csv" :=
  catalog_read_deterministic theDataSource.yaml theDataSource.yaml
    sampleFsExtra sampleFs "csv" rfl (by
      intro p hp
      rw [show open_catalog theDataSource.yaml = [("csv", theDataSource)] from rfl] at hp
      rcases List.mem_singleton.mp hp with rfl
      rfl)
